import Mathlib

/-!
# ActionDispatcher and CStdPreferencesClassDesc

A shallow embedding of

* `Code/Framework/AzManipulatorTestFramework/Include/AzManipulatorTestFramework/ActionDispatcher.h`
* `Code/Editor/PreferencesStdPages.h`

The dispatcher is a class template whose only data member is `m_logging`.  Every public
method is embedded as a function of the `this` pointer and the object state that returns
the pointer handed back to the caller, the state after the call and the externally visible
events of the call in program order: lines handed to `AZ_Printf`, invocations of the pure
virtual `*Impl` hooks, and the debugger break.
-/

namespace AzManipulatorTestFramework

/-! ## Value types named in the method signatures -/

/-- A C++ `float`, carried by its bit pattern; the dispatcher never computes with it. -/
structure F32 where
  bits : Nat
  deriving DecidableEq, Repr

/-- The type `AZ::Vector3`: the three components read by `GetX`, `GetY`, `GetZ`. -/
structure Vector3 where
  x : F32
  y : F32
  z : F32
  deriving DecidableEq, Repr

/-- The type `AzFramework::CameraState`: the two members the dispatcher reads, and the
remaining members (never read here) as raw words. -/
structure CameraState where
  m_position : Vector3
  m_forward : Vector3
  others : List Nat
  deriving DecidableEq, Repr

/-- The type `AzFramework::ScreenPoint`. -/
structure ScreenPoint where
  m_x : Int
  m_y : Int
  deriving DecidableEq, Repr

/-- The type `AZ::EntityId`, a wrapper of an `AZ::u64`; `static_cast<AZ::u64>(entity)` is
`m_id`. -/
structure EntityId where
  m_id : Nat
  deriving DecidableEq, Repr

/-- The type `AzToolsFramework::EntityIdList`. -/
abbrev EntityIdList := List EntityId

/-- The type `AZ::Transform`, carried as raw words; only `AZ::ToString` looks inside. -/
structure Transform where
  words : List Nat
  deriving DecidableEq, Repr

/-- The type `AZ::Uuid`, a 128-bit identifier. -/
structure Uuid where
  value : Nat
  deriving DecidableEq, Repr

/-- The underlying `AZ::u32` value of a `ViewportInteraction::KeyboardModifier`. -/
abbrev KeyboardModifier := Nat

/-- A component type usable as the template argument `ComponentT`. -/
structure ComponentT where
  typeName : String
  deriving DecidableEq, Repr

/-- The address of a dispatcher object (`this`, and the returned `DerivedDispatcherT*`). -/
abbrev Ptr := Nat

/-- What the included headers provide and this header only uses: the enumerators of
`ViewportInteraction::KeyboardModifier`, `AZ::ToString(transform)`,
`uuid.ToString<AZStd::string>()` and `AZ::AzTypeInfo<ComponentT>::Uuid()`. -/
structure Externals where
  None : KeyboardModifier
  Alt : KeyboardModifier
  Shift : KeyboardModifier
  Control : KeyboardModifier
  ToString : Transform → String
  UuidToString : Uuid → String
  AzTypeInfoUuid : ComponentT → Uuid

/-- The four enumerators used as `case` labels are pairwise different (the `switch` of
`KeyboardModifierString` does not compile otherwise). -/
def Externals.DistinctLabels (X : Externals) : Prop :=
  X.Alt ≠ X.Control ∧ X.Alt ≠ X.Shift ∧ X.Alt ≠ X.None ∧
  X.Control ≠ X.Shift ∧ X.Control ≠ X.None ∧ X.Shift ≠ X.None

instance (X : Externals) : Decidable X.DistinctLabels := by
  unfold Externals.DistinctLabels
  infer_instance

/-- A concrete environment: the flag values None = 0, Alt = 1, Shift = 2, Control = 4 and
simple printers. -/
def sampleExternals : Externals where
  None := 0
  Alt := 1
  Shift := 2
  Control := 4
  ToString := fun t => toString t.words
  UuidToString := fun u => toString u.value
  AzTypeInfoUuid := fun c => ⟨c.typeName.length⟩

/-! ## Observable events -/

/-- One variadic argument of a format call. -/
inductive FormatArg where
  | float (v : F32)
  | str (s : String)
  | int (i : Int)
  | u64 (n : Nat)
  deriving DecidableEq, Repr

/-- An invocation of one of the fifteen pure virtual hooks declared in the class, with the
arguments it receives. -/
inductive HookCall where
  | EnableSnapToGridImpl
  | DisableSnapToGridImpl
  | GridSizeImpl (size : F32)
  | CameraStateImpl (cameraState : CameraState)
  | MouseLButtonDownImpl
  | MouseLButtonUpImpl
  | MousePositionImpl (position : ScreenPoint)
  | KeyboardModifierDownImpl (keyModifier : KeyboardModifier)
  | KeyboardModifierUpImpl (keyModifier : KeyboardModifier)
  | ExpectManipulatorBeingInteractedImpl
  | ExpectManipulatorNotBeingInteractedImpl
  | SetEntityWorldTransformImpl (entityId : EntityId) (transform : Transform)
  | SetSelectedEntityImpl (entity : EntityId)
  | SetSelectedEntitiesImpl (entities : EntityIdList)
  | EnterComponentModeImpl (uuid : Uuid)
  deriving DecidableEq, Repr

/-- An externally visible step of a method body. -/
inductive Event where
  | printf (window : String) (format : String) (args : List FormatArg)
  | hook (h : HookCall)
  | debuggerBreak
  deriving DecidableEq, Repr

/-- Modelled from the spec: the macro `AZ_Printf` of `AzCore/Debug/Trace.h` is not among
the sources; it is the external formatted-line sink, and one expansion hands one line
(window, format, arguments) to it. -/
def AZ_Printf (window : String) (format : String) (args : List FormatArg) : List Event :=
  [Event.printf window format args]

/-- The data members of `ActionDispatcher<DerivedDispatcherT>`. -/
structure ActionDispatcher where
  m_logging : Bool := false
  deriving DecidableEq, Repr

/-- What a call leaves behind: the returned pointer, the object state and the events. -/
structure Outcome where
  ret : Ptr
  state : ActionDispatcher
  events : List Event
  deriving DecidableEq, Repr

/-! ## The member functions -/

/-- Member function `ActionDispatcher::Log`. -/
def Log (d : ActionDispatcher) (format : String) (args : List FormatArg) : List Event :=
  if d.m_logging then AZ_Printf "ActionDispatcher" format args else []

/-- Member function `ActionDispatcher::Trace`. -/
def Trace (this : Ptr) (d : ActionDispatcher) (format : String) (args : List FormatArg) :
    Outcome :=
  { ret := this, state := d, events := Log d format args }

/-- Member function `ActionDispatcher::EnableSnapToGrid`. -/
def EnableSnapToGrid (this : Ptr) (d : ActionDispatcher) : Outcome :=
  { ret := this, state := d,
    events := Log d "Enabling SnapToGrid" [] ++ [Event.hook HookCall.EnableSnapToGridImpl] }

/-- Member function `ActionDispatcher::DisableSnapToGrid`. -/
def DisableSnapToGrid (this : Ptr) (d : ActionDispatcher) : Outcome :=
  { ret := this, state := d,
    events := Log d "Disabling SnapToGrid" [] ++ [Event.hook HookCall.DisableSnapToGridImpl] }

/-- Member function `ActionDispatcher::GridSize`. -/
def GridSize (this : Ptr) (d : ActionDispatcher) (size : F32) : Outcome :=
  { ret := this, state := d,
    events := Log d "GridSize: %f" [FormatArg.float size] ++
      [Event.hook (HookCall.GridSizeImpl size)] }

/-- Member function `ActionDispatcher::LogActions`: the flag is stored first, then `Log`
reads it. -/
def LogActions (this : Ptr) (d : ActionDispatcher) (logging : Bool) : Outcome :=
  let d1 : ActionDispatcher := { d with m_logging := logging }
  { ret := this, state := d1,
    events := Log d1 "Log actions: %s"
      [FormatArg.str (if d1.m_logging then "enabled" else "disabled")] }

/-- Member function `ActionDispatcher::CameraState`. -/
def CameraStateCall (this : Ptr) (d : ActionDispatcher) (cameraState : CameraState) :
    Outcome :=
  { ret := this, state := d,
    events := Log d "Camera state: p(%f, %f, %f) d(%f, %f, %f)"
        [FormatArg.float cameraState.m_position.x, FormatArg.float cameraState.m_position.y,
         FormatArg.float cameraState.m_position.z, FormatArg.float cameraState.m_forward.x,
         FormatArg.float cameraState.m_forward.y, FormatArg.float cameraState.m_forward.z] ++
      [Event.hook (HookCall.CameraStateImpl cameraState)] }

/-- Member function `ActionDispatcher::MouseLButtonDown`. -/
def MouseLButtonDown (this : Ptr) (d : ActionDispatcher) : Outcome :=
  { ret := this, state := d,
    events := Log d "%s" [FormatArg.str "Mouse left button down"] ++
      [Event.hook HookCall.MouseLButtonDownImpl] }

/-- Member function `ActionDispatcher::MouseLButtonUp`. -/
def MouseLButtonUp (this : Ptr) (d : ActionDispatcher) : Outcome :=
  { ret := this, state := d,
    events := Log d "%s" [FormatArg.str "Mouse left button up"] ++
      [Event.hook HookCall.MouseLButtonUpImpl] }

/-- Member function `ActionDispatcher::KeyboardModifierString`: the `switch` over the
modifier value, the labels tried in the order written. -/
def KeyboardModifierString (X : Externals) (keyModifier : KeyboardModifier) : String :=
  if keyModifier = X.Alt then "Alt"
  else if keyModifier = X.Control then "Ctrl"
  else if keyModifier = X.Shift then "Shift"
  else if keyModifier = X.None then "None"
  else "Unknown modifier"

/-- Member function `ActionDispatcher::KeyboardModifierDown`. -/
def KeyboardModifierDown (X : Externals) (this : Ptr) (d : ActionDispatcher)
    (keyModifier : KeyboardModifier) : Outcome :=
  { ret := this, state := d,
    events := Log d "Keyboard modifier down: %s"
        [FormatArg.str (KeyboardModifierString X keyModifier)] ++
      [Event.hook (HookCall.KeyboardModifierDownImpl keyModifier)] }

/-- Member function `ActionDispatcher::KeyboardModifierUp`. -/
def KeyboardModifierUp (X : Externals) (this : Ptr) (d : ActionDispatcher)
    (keyModifier : KeyboardModifier) : Outcome :=
  { ret := this, state := d,
    events := Log d "Keyboard modifier up: %s"
        [FormatArg.str (KeyboardModifierString X keyModifier)] ++
      [Event.hook (HookCall.KeyboardModifierUpImpl keyModifier)] }

/-- Member function `ActionDispatcher::MousePosition`. -/
def MousePosition (this : Ptr) (d : ActionDispatcher) (position : ScreenPoint) : Outcome :=
  { ret := this, state := d,
    events := Log d "Mouse position: (%i, %i)"
        [FormatArg.int position.m_x, FormatArg.int position.m_y] ++
      [Event.hook (HookCall.MousePositionImpl position)] }

/-- Member function `ActionDispatcher::ExpectManipulatorBeingInteracted`. -/
def ExpectManipulatorBeingInteracted (this : Ptr) (d : ActionDispatcher) : Outcome :=
  { ret := this, state := d,
    events := Log d "Expecting manipulator interacting" [] ++
      [Event.hook HookCall.ExpectManipulatorBeingInteractedImpl] }

/-- Member function `ActionDispatcher::ExpectManipulatorNotBeingInteracted`. -/
def ExpectManipulatorNotBeingInteracted (this : Ptr) (d : ActionDispatcher) : Outcome :=
  { ret := this, state := d,
    events := Log d "Not expecting manipulator interacting" [] ++
      [Event.hook HookCall.ExpectManipulatorNotBeingInteractedImpl] }

/-- Member function `ActionDispatcher::SetEntityWorldTransform`. -/
def SetEntityWorldTransform (X : Externals) (this : Ptr) (d : ActionDispatcher)
    (entityId : EntityId) (transform : Transform) : Outcome :=
  { ret := this, state := d,
    events := Log d "Setting entity world transform: %s"
        [FormatArg.str (X.ToString transform)] ++
      [Event.hook (HookCall.SetEntityWorldTransformImpl entityId transform)] }

/-- Member function `ActionDispatcher::SetSelectedEntity`. -/
def SetSelectedEntity (this : Ptr) (d : ActionDispatcher) (entity : EntityId) : Outcome :=
  { ret := this, state := d,
    events := Log d "Selecting entity: %u" [FormatArg.u64 entity.m_id] ++
      [Event.hook (HookCall.SetSelectedEntityImpl entity)] }

/-- Member function `ActionDispatcher::SetSelectedEntities`: the range-for runs `Log` once
per element, in list order, and the hook follows the loop. -/
def SetSelectedEntities (this : Ptr) (d : ActionDispatcher) (entities : EntityIdList) :
    Outcome :=
  { ret := this, state := d,
    events :=
      entities.foldl
          (fun acc entity => acc ++ Log d "Selecting entity %u" [FormatArg.u64 entity.m_id]) [] ++
      [Event.hook (HookCall.SetSelectedEntitiesImpl entities)] }

/-- Member function `ActionDispatcher::EnterComponentMode(const AZ::Uuid&)`. -/
def EnterComponentMode (X : Externals) (this : Ptr) (d : ActionDispatcher) (uuid : Uuid) :
    Outcome :=
  { ret := this, state := d,
    events := Log d "Entering component mode: %s" [FormatArg.str (X.UuidToString uuid)] ++
      [Event.hook (HookCall.EnterComponentModeImpl uuid)] }

/-- Member function `ActionDispatcher::DebugBreak`: logs, then `AZ::Debug::Trace::Break()`. -/
def DebugBreak (this : Ptr) (d : ActionDispatcher) : Outcome :=
  { ret := this, state := d,
    events := Log d "Breaking to debugger" [] ++ [Event.debuggerBreak] }

/-- Member function `ActionDispatcher::EnterComponentMode<ComponentT>()`: calls the uuid
overload on `this`, drops the pointer it returns and returns `this`. -/
def EnterComponentModeT (X : Externals) (this : Ptr) (d : ActionDispatcher) (c : ComponentT) :
    Outcome :=
  let r := EnterComponentMode X this d (X.AzTypeInfoUuid c)
  { ret := this, state := r.state, events := r.events }

/-! ## Calls as data -/

/-- A call of one public member function together with its arguments. -/
inductive Call where
  | EnableSnapToGrid
  | DisableSnapToGrid
  | GridSize (size : F32)
  | LogActions (logging : Bool)
  | Trace (format : String) (args : List FormatArg)
  | CameraState (cameraState : CameraState)
  | MouseLButtonDown
  | MouseLButtonUp
  | KeyboardModifierDown (keyModifier : KeyboardModifier)
  | KeyboardModifierUp (keyModifier : KeyboardModifier)
  | MousePosition (position : ScreenPoint)
  | ExpectManipulatorBeingInteracted
  | ExpectManipulatorNotBeingInteracted
  | SetEntityWorldTransform (entityId : EntityId) (transform : Transform)
  | SetSelectedEntity (entity : EntityId)
  | SetSelectedEntities (entities : EntityIdList)
  | EnterComponentMode (uuid : Uuid)
  | DebugBreak
  | EnterComponentModeT (c : ComponentT)
  deriving DecidableEq, Repr

/-- Run one call on the object at `this` whose state is `d`. -/
def invoke (X : Externals) (this : Ptr) (d : ActionDispatcher) : Call → Outcome
  | Call.EnableSnapToGrid => EnableSnapToGrid this d
  | Call.DisableSnapToGrid => DisableSnapToGrid this d
  | Call.GridSize size => GridSize this d size
  | Call.LogActions logging => LogActions this d logging
  | Call.Trace format args => Trace this d format args
  | Call.CameraState cameraState => CameraStateCall this d cameraState
  | Call.MouseLButtonDown => MouseLButtonDown this d
  | Call.MouseLButtonUp => MouseLButtonUp this d
  | Call.KeyboardModifierDown keyModifier => KeyboardModifierDown X this d keyModifier
  | Call.KeyboardModifierUp keyModifier => KeyboardModifierUp X this d keyModifier
  | Call.MousePosition position => MousePosition this d position
  | Call.ExpectManipulatorBeingInteracted => ExpectManipulatorBeingInteracted this d
  | Call.ExpectManipulatorNotBeingInteracted => ExpectManipulatorNotBeingInteracted this d
  | Call.SetEntityWorldTransform entityId transform =>
      SetEntityWorldTransform X this d entityId transform
  | Call.SetSelectedEntity entity => SetSelectedEntity this d entity
  | Call.SetSelectedEntities entities => SetSelectedEntities this d entities
  | Call.EnterComponentMode uuid => EnterComponentMode X this d uuid
  | Call.DebugBreak => DebugBreak this d
  | Call.EnterComponentModeT c => EnterComponentModeT X this d c

/-- A chained expression `p->A()->B()->...`: each call is made on the pointer the previous
call returned, on the state the previous call left. -/
def chain (X : Externals) : Ptr → ActionDispatcher → List Call → Outcome
  | this, d, [] => { ret := this, state := d, events := [] }
  | this, d, c :: cs =>
      let r := invoke X this d c
      let r2 := chain X r.ret r.state cs
      { ret := r2.ret, state := r2.state, events := r.events ++ r2.events }

/-! ## Reading an event list -/

/-- Whether an event is a line handed to `AZ_Printf`. -/
def Event.isLog : Event → Bool
  | Event.printf _ _ _ => true
  | _ => false

/-- Whether an event is a hook invocation. -/
def Event.isHook : Event → Bool
  | Event.hook _ => true
  | _ => false

/-- The log lines of an event list, in order. -/
def logLines (es : List Event) : List Event := es.filter Event.isLog

/-- The hook invocations of an event list, in order. -/
def hookTrace (es : List Event) : List HookCall :=
  es.filterMap fun e => match e with
    | Event.hook h => some h
    | _ => none

/-- The hook that carries the name of a public method with the suffix `Impl`, applied to
the arguments of the call; `none` for the three methods for which the class declares no
such hook. -/
def pairedImpl (X : Externals) : Call → Option HookCall
  | Call.EnableSnapToGrid => some HookCall.EnableSnapToGridImpl
  | Call.DisableSnapToGrid => some HookCall.DisableSnapToGridImpl
  | Call.GridSize size => some (HookCall.GridSizeImpl size)
  | Call.LogActions _ => none
  | Call.Trace _ _ => none
  | Call.CameraState cameraState => some (HookCall.CameraStateImpl cameraState)
  | Call.MouseLButtonDown => some HookCall.MouseLButtonDownImpl
  | Call.MouseLButtonUp => some HookCall.MouseLButtonUpImpl
  | Call.KeyboardModifierDown k => some (HookCall.KeyboardModifierDownImpl k)
  | Call.KeyboardModifierUp k => some (HookCall.KeyboardModifierUpImpl k)
  | Call.MousePosition position => some (HookCall.MousePositionImpl position)
  | Call.ExpectManipulatorBeingInteracted => some HookCall.ExpectManipulatorBeingInteractedImpl
  | Call.ExpectManipulatorNotBeingInteracted =>
      some HookCall.ExpectManipulatorNotBeingInteractedImpl
  | Call.SetEntityWorldTransform entityId transform =>
      some (HookCall.SetEntityWorldTransformImpl entityId transform)
  | Call.SetSelectedEntity entity => some (HookCall.SetSelectedEntityImpl entity)
  | Call.SetSelectedEntities entities => some (HookCall.SetSelectedEntitiesImpl entities)
  | Call.EnterComponentMode uuid => some (HookCall.EnterComponentModeImpl uuid)
  | Call.DebugBreak => none
  | Call.EnterComponentModeT c => some (HookCall.EnterComponentModeImpl (X.AzTypeInfoUuid c))

end AzManipulatorTestFramework

/-! ## The standard preferences pages class descriptor -/

/-- An `IPreferencesPage` object, told apart by its concrete class. -/
structure IPreferencesPage where
  concreteType : String
  deriving DecidableEq, Repr

/-- The type `IPreferencesPage*`: `none` is the null pointer. -/
abbrev IPreferencesPagePtr := Option IPreferencesPage

/-- The data members of `CStdPreferencesClassDesc` as the header declares them: the
reference count and the vector of `AZStd::function<IPreferencesPage*()>`. -/
structure CStdPreferencesClassDesc where
  m_refCount : Int
  m_pageCreators : List (Unit → IPreferencesPagePtr)

namespace CStdPreferencesClassDesc

/-- Modelled from the spec: the constructor body is in `PreferencesStdPages.cpp`, which is
not among the sources.  The sequence is populated once, at construction, with one
zero-argument capsule per standard page, each producing a page object; the starting
reference count is not stated and is left to the caller of this definition. -/
def construct (refCount : Int) (pageConstructors : List (Unit → IPreferencesPage)) :
    CStdPreferencesClassDesc :=
  { m_refCount := refCount,
    m_pageCreators := pageConstructors.map fun make => fun u => some (make u) }

/-- Modelled from the spec: `GetPagesCount` is defined in `PreferencesStdPages.cpp`, not
among the sources; it returns the number of registered page constructors. -/
def GetPagesCount (d : CStdPreferencesClassDesc) : Int :=
  (d.m_pageCreators.length : Int)

/-- Modelled from the spec: `CreateEditorPreferencesPage` is defined in
`PreferencesStdPages.cpp`, not among the sources; for `0 ≤ index < GetPagesCount()` it
returns what the creator at that position produces.  An index out of range is outside the
contract: the outer `none`. -/
def CreateEditorPreferencesPage (d : CStdPreferencesClassDesc) (index : Int) :
    Option IPreferencesPagePtr :=
  if 0 ≤ index ∧ index < d.GetPagesCount then
    (d.m_pageCreators.get? index.toNat).map fun creator => creator ()
  else none

/-- The operations the header declares on a constructed object. -/
inductive Op where
  | QueryInterface (riid : Nat)
  | AddRef
  | Release
  | ClassID
  | GetPagesCount
  | CreateEditorPreferencesPage (index : Int)

/-- Modelled from the spec: the member function bodies are in `PreferencesStdPages.cpp`,
not among the sources.  `AddRef` and `Release` increment and decrement the count, and the
other operations answer a query without writing to the object. -/
def step (d : CStdPreferencesClassDesc) : Op → CStdPreferencesClassDesc
  | Op.AddRef => { d with m_refCount := d.m_refCount + 1 }
  | Op.Release => { d with m_refCount := d.m_refCount - 1 }
  | Op.QueryInterface _ => d
  | Op.ClassID => d
  | Op.GetPagesCount => d
  | Op.CreateEditorPreferencesPage _ => d

/-- The object after a sequence of operations. -/
def run (d : CStdPreferencesClassDesc) (ops : List Op) : CStdPreferencesClassDesc :=
  ops.foldl step d

end CStdPreferencesClassDesc

/-! ## Lemmas on the dispatcher -/

namespace AzManipulatorTestFramework

/-- The range-for of `SetSelectedEntities` appends one line per entity when logging, and
nothing otherwise. -/
theorem selectLoop_eq (d : ActionDispatcher) (entities : EntityIdList) (init : List Event) :
    entities.foldl
        (fun acc entity => acc ++ Log d "Selecting entity %u" [FormatArg.u64 entity.m_id]) init
      = init ++ (if d.m_logging then
          entities.map fun entity =>
            Event.printf "ActionDispatcher" "Selecting entity %u" [FormatArg.u64 entity.m_id]
        else []) := by
  induction entities generalizing init with
  | nil => simp
  | cons e es ih =>
    rw [List.foldl_cons, ih]
    cases hl : d.m_logging <;> simp [Log, AZ_Printf, hl]

theorem SetSelectedEntities_events (this : Ptr) (d : ActionDispatcher)
    (entities : EntityIdList) :
    (SetSelectedEntities this d entities).events
      = (if d.m_logging then
          entities.map fun entity =>
            Event.printf "ActionDispatcher" "Selecting entity %u" [FormatArg.u64 entity.m_id]
        else []) ++ [Event.hook (HookCall.SetSelectedEntitiesImpl entities)] := by
  simp [SetSelectedEntities, selectLoop_eq]

theorem filter_isLog_map_printf (entities : EntityIdList) :
    (entities.map fun entity =>
        Event.printf "ActionDispatcher" "Selecting entity %u" [FormatArg.u64 entity.m_id]).filter
      Event.isLog
      = entities.map fun entity =>
        Event.printf "ActionDispatcher" "Selecting entity %u" [FormatArg.u64 entity.m_id] := by
  induction entities with
  | nil => rfl
  | cons e es ih => simp [List.filter, Event.isLog]

theorem invoke_ret (X : Externals) (this : Ptr) (d : ActionDispatcher) (c : Call) :
    (invoke X this d c).ret = this := by
  cases c <;> rfl

theorem invoke_hookTrace (X : Externals) (this : Ptr) (d : ActionDispatcher) (c : Call) :
    hookTrace (invoke X this d c).events = (pairedImpl X c).toList := by
  cases c <;> cases hl : d.m_logging <;>
    simp [invoke, hookTrace, pairedImpl, Log, AZ_Printf, hl, EnableSnapToGrid,
      DisableSnapToGrid, GridSize, LogActions, Trace, CameraStateCall, MouseLButtonDown,
      MouseLButtonUp, KeyboardModifierDown, KeyboardModifierUp, MousePosition,
      ExpectManipulatorBeingInteracted, ExpectManipulatorNotBeingInteracted,
      SetEntityWorldTransform, SetSelectedEntity, SetSelectedEntities_events,
      EnterComponentMode, DebugBreak, EnterComponentModeT, List.filterMap_append]

/-- Every call emits its log lines first: the events are the log lines followed by what the
call does besides logging (its hook, or the debugger break, or nothing). -/
theorem invoke_events_split (X : Externals) (this : Ptr) (d : ActionDispatcher) (c : Call) :
    (invoke X this d c).events
      = logLines (invoke X this d c).events ++
        (match pairedImpl X c with
          | some h => [Event.hook h]
          | none => if c = Call.DebugBreak then [Event.debuggerBreak] else []) := by
  cases c <;> cases hl : d.m_logging <;>
    simp [invoke, logLines, pairedImpl, Log, AZ_Printf, hl, EnableSnapToGrid,
      DisableSnapToGrid, GridSize, LogActions, Trace, CameraStateCall, MouseLButtonDown,
      MouseLButtonUp, KeyboardModifierDown, KeyboardModifierUp, MousePosition,
      ExpectManipulatorBeingInteracted, ExpectManipulatorNotBeingInteracted,
      SetEntityWorldTransform, SetSelectedEntity, SetSelectedEntities_events,
      EnterComponentMode, DebugBreak, EnterComponentModeT, List.filter_append,
      filter_isLog_map_printf, Event.isLog, List.filter]
  all_goals (rename_i logging; cases logging <;> simp [Event.isLog, List.filter])

theorem invoke_state (X : Externals) (this : Ptr) (d : ActionDispatcher) (c : Call) :
    (invoke X this d c).state
      = (match c with
          | Call.LogActions logging => { m_logging := logging }
          | _ => d) := by
  cases c <;> rfl

/-- The number of lines a call emits when the flag is set on entry. -/
theorem invoke_logLines_length (X : Externals) (this : Ptr) (d : ActionDispatcher) (c : Call)
    (h : d.m_logging = true) :
    (logLines (invoke X this d c).events).length
      = (match c with
          | Call.SetSelectedEntities entities => entities.length
          | Call.LogActions logging => if logging then 1 else 0
          | _ => 1) := by
  cases c <;>
    simp [invoke, logLines, Log, AZ_Printf, h, EnableSnapToGrid,
      DisableSnapToGrid, GridSize, LogActions, Trace, CameraStateCall, MouseLButtonDown,
      MouseLButtonUp, KeyboardModifierDown, KeyboardModifierUp, MousePosition,
      ExpectManipulatorBeingInteracted, ExpectManipulatorNotBeingInteracted,
      SetEntityWorldTransform, SetSelectedEntity, SetSelectedEntities_events,
      EnterComponentMode, DebugBreak, EnterComponentModeT, List.filter_append,
      filter_isLog_map_printf, Event.isLog, List.filter]
  case LogActions logging => cases logging <;> simp [Event.isLog, List.filter]

theorem hookTrace_append (es fs : List Event) :
    hookTrace (es ++ fs) = hookTrace es ++ hookTrace fs := by
  simp [hookTrace, List.filterMap_append]

theorem chain_ret (X : Externals) (this : Ptr) (d : ActionDispatcher) (cs : List Call) :
    (chain X this d cs).ret = this := by
  induction cs generalizing d with
  | nil => rfl
  | cons c cs ih => simp [chain, invoke_ret, ih]

theorem chain_hookTrace (X : Externals) (this : Ptr) (d : ActionDispatcher) (cs : List Call) :
    hookTrace (chain X this d cs).events = cs.filterMap (pairedImpl X) := by
  induction cs generalizing d with
  | nil => rfl
  | cons c cs ih =>
    simp only [chain, hookTrace_append, invoke_ret, invoke_hookTrace, ih]
    cases hp : pairedImpl X c <;> simp [List.filterMap_cons, hp]

theorem chain_append (X : Externals) (this : Ptr) (d : ActionDispatcher) (xs ys : List Call) :
    chain X this d (xs ++ ys)
      = { ret := (chain X this (chain X this d xs).state ys).ret,
          state := (chain X this (chain X this d xs).state ys).state,
          events := (chain X this d xs).events ++
            (chain X this (chain X this d xs).state ys).events } := by
  induction xs generalizing d with
  | nil => simp [chain]
  | cons c cs ih => simp [chain, invoke_ret, ih]

/-! ## The claims -/

/-- C1, as stated, fails: with logging enabled, `SetSelectedEntities` on a list of two
entities emits two log lines, not exactly one. -/
theorem C1_counterexample :
    ¬ ((logLines (invoke sampleExternals 0 { m_logging := true }
          (Call.SetSelectedEntities [⟨1⟩, ⟨2⟩])).events).length = 1) := by
  decide

/-- C1, amended: when `m_logging` is true on entry, a call of any public method other than
`SetSelectedEntities` and `LogActions(false)` emits exactly one log line, and
`SetSelectedEntities` emits one line per entity of its list.  In every case all log lines
of the call come before its hook (or debugger break): the events are the log lines
followed by a remainder that holds no log line and every hook invocation of the call. -/
theorem C1_log_lines_when_enabled (X : Externals) (this : Ptr) (d : ActionDispatcher)
    (c : Call) (h : d.m_logging = true) (hc : c ≠ Call.LogActions false) :
    (logLines (invoke X this d c).events).length
        = (match c with
            | Call.SetSelectedEntities entities => entities.length
            | _ => 1) ∧
      ∃ rest, (invoke X this d c).events = logLines (invoke X this d c).events ++ rest ∧
        (∀ e ∈ rest, e.isLog = false) ∧
        hookTrace rest = hookTrace (invoke X this d c).events := by
  refine ⟨?_, _, invoke_events_split X this d c, ?_, ?_⟩
  · rw [invoke_logLines_length X this d c h]
    cases c <;> try rfl
    case LogActions logging =>
      cases logging
      · exact absurd rfl hc
      · rfl
  · intro e he
    cases hp : pairedImpl X c with
    | some hk =>
      rw [hp] at he
      simp at he
      subst he
      rfl
    | none =>
      rw [hp] at he
      by_cases hd : c = Call.DebugBreak
      · simp [hd] at he
        subst he
        rfl
      · simp [hd] at he
  · rw [invoke_hookTrace]
    cases hp : pairedImpl X c with
    | some hk => simp [hookTrace]
    | none =>
      by_cases hd : c = Call.DebugBreak <;> simp [hd, hookTrace]

/-- C1 witness: `GridSize` with logging enabled emits one line. -/
theorem C1_log_lines_when_enabled_witness :
    (logLines (invoke sampleExternals 0 { m_logging := true }
        (Call.GridSize ⟨5⟩)).events).length = 1 :=
  (C1_log_lines_when_enabled sampleExternals 0 { m_logging := true } (Call.GridSize ⟨5⟩) rfl
    (by decide)).1

/-- C2, as stated, fails: `DebugBreak` is a public method and a call of it invokes no
`*Impl` hook at all (the class declares none for it), so not exactly one. -/
theorem C2_counterexample :
    ¬ ((hookTrace (invoke sampleExternals 0 { m_logging := true }
          Call.DebugBreak).events).length = 1) := by
  decide

/-- C2, amended: a call of a public method that has a paired `*Impl` hook (every method but
`LogActions`, `Trace` and `DebugBreak`) invokes that hook exactly once, with the arguments
of the call unchanged, as the last event of the call, after all of its log lines, whatever
the logging flag; `LogActions` and `Trace` invoke no hook, and `DebugBreak` invokes no hook
and breaks to the debugger after its log line. -/
theorem C2_hook_once_after_log (X : Externals) (this : Ptr) (d : ActionDispatcher)
    (c : Call) :
    hookTrace (invoke X this d c).events = (pairedImpl X c).toList ∧
      (invoke X this d c).events
        = logLines (invoke X this d c).events ++
          (match pairedImpl X c with
            | some h => [Event.hook h]
            | none => if c = Call.DebugBreak then [Event.debuggerBreak] else []) ∧
      (pairedImpl X c = none ↔
        (c = Call.DebugBreak ∨ (∃ logging, c = Call.LogActions logging) ∨
          ∃ format args, c = Call.Trace format args)) := by
  refine ⟨invoke_hookTrace X this d c, invoke_events_split X this d c, ?_⟩
  cases c <;> simp [pairedImpl]

/-- C3: every call returns the pointer it was invoked on, so does a whole chain, and the
hook trace of a chain is the sequence of paired hooks of its calls in the order written;
the hook trace of `xs ++ ys` is that of `xs` followed by that of `ys`. -/
theorem C3_chain_order (X : Externals) (this : Ptr) (d : ActionDispatcher)
    (xs ys : List Call) :
    (∀ c, (invoke X this d c).ret = this) ∧
      (chain X this d xs).ret = this ∧
      hookTrace (chain X this d xs).events = xs.filterMap (pairedImpl X) ∧
      (chain X this d (xs ++ ys)).events
        = (chain X this d xs).events ++ (chain X this (chain X this d xs).state ys).events ∧
      hookTrace (chain X this d (xs ++ ys)).events
        = hookTrace (chain X this d xs).events ++ hookTrace (chain X this d ys).events := by
  refine ⟨fun c => invoke_ret X this d c, chain_ret X this d xs, chain_hookTrace X this d xs,
    ?_, ?_⟩
  · rw [chain_append]
  · simp [chain_hookTrace, List.filterMap_append]

/-- C4: `KeyboardModifierString` maps Alt, Control, Shift and None to "Alt", "Ctrl",
"Shift" and "None" and every other value to "Unknown modifier"; the line that
`KeyboardModifierDown` / `KeyboardModifierUp` hand to `Log` is this string after
"Keyboard modifier down: " / "Keyboard modifier up: ". -/
theorem C4_keyboard_modifier_string (X : Externals) (hX : X.DistinctLabels)
    (this : Ptr) (d : ActionDispatcher) (k : KeyboardModifier) :
    KeyboardModifierString X X.Alt = "Alt" ∧
      KeyboardModifierString X X.Control = "Ctrl" ∧
      KeyboardModifierString X X.Shift = "Shift" ∧
      KeyboardModifierString X X.None = "None" ∧
      (k ≠ X.Alt → k ≠ X.Control → k ≠ X.Shift → k ≠ X.None →
        KeyboardModifierString X k = "Unknown modifier") ∧
      KeyboardModifierString X k ∈ ["Alt", "Ctrl", "Shift", "None", "Unknown modifier"] ∧
      (KeyboardModifierDown X this d k).events
        = Log d ("Keyboard modifier down: " ++ "%s")
            [FormatArg.str (KeyboardModifierString X k)] ++
          [Event.hook (HookCall.KeyboardModifierDownImpl k)] ∧
      (KeyboardModifierUp X this d k).events
        = Log d ("Keyboard modifier up: " ++ "%s")
            [FormatArg.str (KeyboardModifierString X k)] ++
          [Event.hook (HookCall.KeyboardModifierUpImpl k)] ∧
      (d.m_logging = true →
        logLines (KeyboardModifierDown X this d k).events
          = [Event.printf "ActionDispatcher" ("Keyboard modifier down: " ++ "%s")
              [FormatArg.str (KeyboardModifierString X k)]] ∧
        logLines (KeyboardModifierUp X this d k).events
          = [Event.printf "ActionDispatcher" ("Keyboard modifier up: " ++ "%s")
              [FormatArg.str (KeyboardModifierString X k)]]) := by
  obtain ⟨h1, h2, h3, h4, h5, h6⟩ := hX
  have e1 : "Keyboard modifier down: " ++ "%s" = "Keyboard modifier down: %s" := by decide
  have e2 : "Keyboard modifier up: " ++ "%s" = "Keyboard modifier up: %s" := by decide
  refine ⟨?_, ?_, ?_, ?_, ?_, ?_, ?_, ?_, ?_⟩
  · simp [KeyboardModifierString]
  · simp [KeyboardModifierString, Ne.symm h1]
  · simp [KeyboardModifierString, Ne.symm h2, Ne.symm h4]
  · simp [KeyboardModifierString, Ne.symm h3, Ne.symm h5, Ne.symm h6]
  · intro a b c e
    simp [KeyboardModifierString, a, b, c, e]
  · unfold KeyboardModifierString
    split_ifs <;> simp
  · rw [e1]; rfl
  · rw [e2]; rfl
  · intro hl
    rw [e1, e2]
    simp [KeyboardModifierDown, KeyboardModifierUp, logLines, Log, AZ_Printf, hl,
      List.filter, Event.isLog]

/-- C4 witness: with Alt = 1, Shift = 2, Control = 4, None = 0, the combination
Alt | Shift = 3 is an unknown modifier. -/
theorem C4_keyboard_modifier_string_witness :
    sampleExternals.DistinctLabels ∧
      KeyboardModifierString sampleExternals 3 = "Unknown modifier" :=
  ⟨by decide,
    (C4_keyboard_modifier_string sampleExternals (by decide) 0 { m_logging := true }
        3).2.2.2.2.1 (by decide) (by decide) (by decide) (by decide)⟩

/-- C5: when `m_logging` is false on entry, a call of any public method other than
`LogActions(true)`, `Trace` with any format and arguments included, emits no log line. -/
theorem C5_no_lines_when_disabled (X : Externals) (this : Ptr) (d : ActionDispatcher)
    (c : Call) (h : d.m_logging = false) (hc : c ≠ Call.LogActions true) :
    logLines (invoke X this d c).events = [] := by
  cases c <;>
    simp [invoke, logLines, Log, AZ_Printf, h, EnableSnapToGrid,
      DisableSnapToGrid, GridSize, LogActions, Trace, CameraStateCall, MouseLButtonDown,
      MouseLButtonUp, KeyboardModifierDown, KeyboardModifierUp, MousePosition,
      ExpectManipulatorBeingInteracted, ExpectManipulatorNotBeingInteracted,
      SetEntityWorldTransform, SetSelectedEntity, SetSelectedEntities_events,
      EnterComponentMode, DebugBreak, EnterComponentModeT, Event.isLog, List.filter]
  case LogActions logging =>
    cases logging
    · simp
    · exact absurd rfl hc

/-- C5 witness: `Trace` on a freshly constructed dispatcher prints nothing. -/
theorem C5_no_lines_when_disabled_witness :
    logLines (invoke sampleExternals 0 {} (Call.Trace "step %u" [FormatArg.u64 3])).events
      = [] :=
  C5_no_lines_when_disabled sampleExternals 0 {} (Call.Trace "step %u" [FormatArg.u64 3])
    rfl (by decide)

/-- C6: the state of the dispatcher base is the logging flag alone; a call of any public
method other than `LogActions` leaves it as it was on entry, `LogActions(b)` leaves it
equal to `b` whatever it was before, and a newly constructed dispatcher has it false. -/
theorem C6_only_LogActions_writes_flag (X : Externals) (this : Ptr) (d : ActionDispatcher)
    (c : Call) (b : Bool) :
    ((∀ logging, c ≠ Call.LogActions logging) →
        (invoke X this d c).state = d ∧
          (invoke X this d c).state.m_logging = d.m_logging) ∧
      (invoke X this d (Call.LogActions b)).state.m_logging = b ∧
      (LogActions this d b).state.m_logging = b ∧
      ({} : ActionDispatcher).m_logging = false := by
  refine ⟨?_, rfl, rfl, rfl⟩
  intro hc
  have hs := invoke_state X this d c
  cases c <;> simp_all

/-- C6 witness: `SetSelectedEntity` on a logging dispatcher keeps the flag set. -/
theorem C6_only_LogActions_writes_flag_witness :
    (invoke sampleExternals 0 { m_logging := true }
        (Call.SetSelectedEntity ⟨7⟩)).state.m_logging = true :=
  ((C6_only_LogActions_writes_flag sampleExternals 0 { m_logging := true }
      (Call.SetSelectedEntity ⟨7⟩) false).1 (by intro logging; exact nofun)).2

/-- C7: the templated `EnterComponentMode<ComponentT>()` has the same outcome as
`EnterComponentMode(uuid)` called with `AzTypeInfo<ComponentT>::Uuid()`: the same events
(the same log output and the one `EnterComponentModeImpl(uuid)` invocation), the same
resulting flag and the same returned pointer; it adds no event of its own. -/
theorem C7_templated_overload (X : Externals) (this : Ptr) (d : ActionDispatcher)
    (c : ComponentT) :
    EnterComponentModeT X this d c = EnterComponentMode X this d (X.AzTypeInfoUuid c) ∧
      invoke X this d (Call.EnterComponentModeT c)
        = invoke X this d (Call.EnterComponentMode (X.AzTypeInfoUuid c)) ∧
      (EnterComponentModeT X this d c).events
        = Log d "Entering component mode: %s"
            [FormatArg.str (X.UuidToString (X.AzTypeInfoUuid c))] ++
          [Event.hook (HookCall.EnterComponentModeImpl (X.AzTypeInfoUuid c))] ∧
      hookTrace (EnterComponentModeT X this d c).events
        = [HookCall.EnterComponentModeImpl (X.AzTypeInfoUuid c)] ∧
      (EnterComponentModeT X this d c).ret = this ∧
      (EnterComponentModeT X this d c).state = d := by
  refine ⟨rfl, rfl, rfl, ?_, rfl, rfl⟩
  exact invoke_hookTrace X this d (Call.EnterComponentModeT c)

/-- C9: with logging enabled, `SetSelectedEntities(es)` emits one "Selecting entity %u"
line per element of `es`, in list order, `length es` lines in all, and then invokes
`SetSelectedEntitiesImpl(es)` once with the whole list; for the empty list the hook
invocation is the only event. -/
theorem C9_one_line_per_entity (this : Ptr) (d : ActionDispatcher) (es : EntityIdList)
    (h : d.m_logging = true) :
    (SetSelectedEntities this d es).events
        = (es.map fun entity =>
            Event.printf "ActionDispatcher" "Selecting entity %u" [FormatArg.u64 entity.m_id])
          ++ [Event.hook (HookCall.SetSelectedEntitiesImpl es)] ∧
      (logLines (SetSelectedEntities this d es).events).length = es.length ∧
      hookTrace (SetSelectedEntities this d es).events
        = [HookCall.SetSelectedEntitiesImpl es] ∧
      (SetSelectedEntities this d []).events
        = [Event.hook (HookCall.SetSelectedEntitiesImpl [])] := by
  refine ⟨?_, ?_, ?_, ?_⟩
  · simp [SetSelectedEntities_events, h]
  · simp [SetSelectedEntities_events, h, logLines, List.filter_append,
      filter_isLog_map_printf, List.filter, Event.isLog]
  · simp [SetSelectedEntities_events, h, hookTrace, List.filterMap_append]
  · rfl

/-- C9 witness: two entities, two lines, then the hook. -/
theorem C9_one_line_per_entity_witness :
    (SetSelectedEntities 0 { m_logging := true } [⟨7⟩, ⟨9⟩]).events
      = [Event.printf "ActionDispatcher" "Selecting entity %u" [FormatArg.u64 7],
         Event.printf "ActionDispatcher" "Selecting entity %u" [FormatArg.u64 9],
         Event.hook (HookCall.SetSelectedEntitiesImpl [⟨7⟩, ⟨9⟩])] :=
  (C9_one_line_per_entity 0 { m_logging := true } [⟨7⟩, ⟨9⟩] rfl).1

/-- C10: `LogActions` stores the flag before it logs, so for every previous state
`LogActions(true)` emits exactly the one line "Log actions: %s" with "enabled",
`LogActions(false)` emits nothing, no call of `LogActions` emits the line with "disabled",
and no call of `LogActions` invokes a hook.  Nor does a call of any other method with a
fixed format (every method but `Trace`, whose text is the caller's) emit that line. -/
theorem C10_LogActions_output (X : Externals) (this : Ptr) (d : ActionDispatcher) (b : Bool)
    (c : Call) :
    (LogActions this d true).events
        = [Event.printf "ActionDispatcher" "Log actions: %s" [FormatArg.str "enabled"]] ∧
      (LogActions this d false).events = [] ∧
      (LogActions this d b).events = (LogActions this { m_logging := !d.m_logging } b).events ∧
      Event.printf "ActionDispatcher" "Log actions: %s" [FormatArg.str "disabled"]
        ∉ (LogActions this d b).events ∧
      hookTrace (LogActions this d b).events = [] ∧
      ((∀ format args, c ≠ Call.Trace format args) →
        Event.printf "ActionDispatcher" "Log actions: %s" [FormatArg.str "disabled"]
          ∉ (invoke X this d c).events) := by
  refine ⟨rfl, rfl, rfl, ?_, ?_, ?_⟩
  · cases b <;> simp [LogActions, Log, AZ_Printf]
  · cases b <;> simp [LogActions, Log, AZ_Printf, hookTrace]
  · intro hc
    cases c <;> cases hl : d.m_logging <;>
      simp [invoke, Log, AZ_Printf, hl, EnableSnapToGrid,
        DisableSnapToGrid, GridSize, LogActions, CameraStateCall, MouseLButtonDown,
        MouseLButtonUp, KeyboardModifierDown, KeyboardModifierUp, MousePosition,
        ExpectManipulatorBeingInteracted, ExpectManipulatorNotBeingInteracted,
        SetEntityWorldTransform, SetSelectedEntity, SetSelectedEntities_events,
        EnterComponentMode, DebugBreak, EnterComponentModeT]
    all_goals first
      | exact absurd rfl (hc _ _)
      | (rename_i logging; cases logging <;> simp)

/-- C10 witness: `LogActions(false)` on a logging dispatcher emits nothing, so not the
"disabled" line. -/
theorem C10_LogActions_output_witness :
    Event.printf "ActionDispatcher" "Log actions: %s" [FormatArg.str "disabled"]
      ∉ (invoke sampleExternals 0 { m_logging := true } (Call.LogActions false)).events :=
  (C10_LogActions_output sampleExternals 0 { m_logging := true } false
      (Call.LogActions false)).2.2.2.2.2 (by intro format args; exact nofun)

end AzManipulatorTestFramework

namespace CStdPreferencesClassDesc

theorem step_pageCreators (d : CStdPreferencesClassDesc) (op : Op) :
    (step d op).m_pageCreators = d.m_pageCreators := by
  cases op <;> rfl

theorem run_pageCreators (d : CStdPreferencesClassDesc) (ops : List Op) :
    (run d ops).m_pageCreators = d.m_pageCreators := by
  induction ops generalizing d with
  | nil => rfl
  | cons op ops ih =>
    have h := ih (step d op)
    simp only [run, List.foldl_cons] at h ⊢
    rw [h, step_pageCreators]

/-- C8: after construction and any sequence of operations, `m_pageCreators` is still the
sequence built by the constructor, `GetPagesCount()` is its length, and for every index
`i` with `0 ≤ i < GetPagesCount()`, `CreateEditorPreferencesPage(i)` returns the non-null
page produced by the creator registered at position `i`. -/
theorem C8_pages_registry (refCount : Int) (pageConstructors : List (Unit → IPreferencesPage))
    (ops : List Op) (i : Int)
    (h0 : 0 ≤ i) (h1 : i < (run (construct refCount pageConstructors) ops).GetPagesCount) :
    (run (construct refCount pageConstructors) ops).m_pageCreators
        = (construct refCount pageConstructors).m_pageCreators ∧
      (run (construct refCount pageConstructors) ops).GetPagesCount
        = ((run (construct refCount pageConstructors) ops).m_pageCreators.length : Int) ∧
      (run (construct refCount pageConstructors) ops).GetPagesCount
        = (pageConstructors.length : Int) ∧
      ∃ creator page,
        (run (construct refCount pageConstructors) ops).m_pageCreators.get? i.toNat
            = some creator ∧
          creator () = some page ∧
          (run (construct refCount pageConstructors) ops).CreateEditorPreferencesPage i
            = some (some page) := by
  have hrun := run_pageCreators (construct refCount pageConstructors) ops
  have hlen : (run (construct refCount pageConstructors) ops).GetPagesCount
      = (pageConstructors.length : Int) := by
    rw [GetPagesCount, hrun]
    simp [construct]
  refine ⟨hrun, rfl, hlen, ?_⟩
  rw [hlen] at h1
  have hi : i.toNat < pageConstructors.length := by omega
  refine ⟨fun u => some (pageConstructors.get ⟨i.toNat, hi⟩ u),
    pageConstructors.get ⟨i.toNat, hi⟩ (), ?_, rfl, ?_⟩
  · rw [hrun]
    simp [construct, List.getElem?_eq_getElem, hi]
  · have hc : 0 ≤ i ∧ i < (run (construct refCount pageConstructors) ops).GetPagesCount := by
      rw [hlen]; exact ⟨h0, h1⟩
    simp only [CreateEditorPreferencesPage, hc, and_self, if_true, hrun]
    simp [construct, List.getElem?_eq_getElem, hi]

/-- C8 witness: a registry of two pages, after an `AddRef`, still counts two pages and
creates a non-null page at index 1. -/
theorem C8_pages_registry_witness :
    (run (construct 0 [fun _ => ⟨"General"⟩, fun _ => ⟨"Files"⟩]) [Op.AddRef]).GetPagesCount
        = 2 ∧
      ∃ page, (run (construct 0 [fun _ => ⟨"General"⟩, fun _ => ⟨"Files"⟩])
          [Op.AddRef]).CreateEditorPreferencesPage 1 = some (some page) := by
  obtain ⟨_, _, hlen, _, page, _, _, hcreate⟩ :=
    C8_pages_registry 0 [fun _ => ⟨"General"⟩, fun _ => ⟨"Files"⟩] [Op.AddRef] 1
      (by decide) (by decide)
  exact ⟨hlen, page, hcreate⟩

end CStdPreferencesClassDesc
